import Mathlib

/-!
Verification of the skill-swap platform's two algorithmic engines against
their natural-language specification.

The development shallowly embeds `src/matching.py` and `src/moderation.py`:
Python floats are modelled as exact rationals (`ℚ`), Python lists as `List`,
Python dicts holding user profiles as a `User` structure whose string fields
use `""` for an absent/falsy value (mirroring Python truthiness of
`dict.get`).  The external pretrained models (the sentence-transformer
encoder and the Detoxify classifier) are not repository code; they are
embedded as oracles constrained exactly by their documented contracts:
the encoder is abstracted at the level of its pairwise cosine similarity
(a symmetric function into `[-1, 1]`), and the classifier as an optional
function returning per-category scores in `[0, 1]`, with `none` standing
for an unavailable model and a `none` result standing for a failed
prediction (a raised exception in the source).  Every regular expression
used by the moderation rules is embedded as an executable Lean function
whose semantics follows Python `re.search`/`re.findall` on that pattern.
-/

/- Rational arithmetic in Batteries is `@[irreducible]`, which blocks
`decide`-style evaluation of the embedded (executable) operations on
concrete inputs; restore default transparency for this file. -/
attribute [local semireducible] Rat.mul Rat.add Rat.sub Rat.inv Rat.ofScientific

/-! ## Python string primitives -/

/-- Python whitespace characters relevant to `str.strip` / `str.split`
(the ASCII subset: space, tab, newline, carriage return, vertical tab,
form feed). -/
def isPyWhitespace (c : Char) : Bool :=
  c = ' ' || c = '\t' || c = '\n' || c = '\r' || c = '\x0b' || c = '\x0c'

/-- Python `str.strip()`: drop leading and trailing whitespace. -/
def pyStrip (s : String) : String :=
  ⟨(s.toList.dropWhile isPyWhitespace).reverse.dropWhile isPyWhitespace |>.reverse⟩

/-- Python `str.lower()` (ASCII case folding, which covers all content the
source compares). -/
def pyLower (s : String) : String :=
  ⟨s.toList.map Char.toLower⟩

/-- Python `str.split()` with no argument: split on whitespace runs,
discarding empty pieces. -/
def pySplit (s : String) : List String :=
  ((s.toList.splitOnP isPyWhitespace).map (fun l => (⟨l⟩ : String))).filter
    (fun w => w ≠ "")

/-- `pat.isPrefixOf (hay.drop i)`: the pattern occurs at position `i`. -/
def subAt (hay pat : List Char) (i : Nat) : Bool :=
  pat.isPrefixOf (hay.drop i)

/-- Python `needle in hay` substring containment. -/
def occursIn (hay pat : List Char) : Bool :=
  (List.range (hay.length + 1)).any (fun i => subAt hay pat i)

/-- Python `needle in hay` on `String`s. -/
def strContains (hay needle : String) : Bool :=
  occursIn hay.toList needle.toList

/-! ## The matching engine (`src/matching.py`) -/

/-- A candidate profile as consumed by `match_users`: a plain record view
of the user dict.  String fields use `""` for a missing/empty value, which
is exactly Python falsiness for the `user.get(...)` tests the source
performs. -/
structure User where
  id : Nat
  name : String
  skills_offered : List String
  skills_wanted : List String
  availability : String
  location : String
deriving Repr, DecidableEq

/-- The abbreviation expansion table of `SkillMatcher._clean_skill`, in the
source's (insertion-ordered dict) order. -/
def skill_expansions : List (String × String) :=
  [("js", "javascript"),
   ("py", "python"),
   ("html/css", "html css web design"),
   ("ui/ux", "user interface user experience design"),
   ("ml", "machine learning"),
   ("ai", "artificial intelligence"),
   ("db", "database"),
   ("sql", "structured query language database"),
   ("api", "application programming interface"),
   ("git", "version control git"),
   ("docker", "containerization docker"),
   ("aws", "amazon web services cloud computing"),
   ("gcp", "google cloud platform"),
   ("azure", "microsoft azure cloud")]

/-- `SkillMatcher._clean_skill`: strip, lowercase, then substring-replace
each known abbreviation in table order (Python `str.replace` replaces all
occurrences). -/
def _clean_skill (skill : String) : String :=
  let s := pyLower (pyStrip skill)
  skill_expansions.foldl
    (fun acc p => if strContains acc p.1 then acc.replace p.1 p.2 else acc) s

/-- The sentence-transformer encoder, abstracted at the level of the
pairwise cosine similarity it induces on (cleaned) skill texts.  The two
propositional fields are the documented contract of cosine similarity on a
deterministic encoder: symmetry and range `[-1, 1]`. -/
structure SkillMatcher where
  cos : String → String → ℚ
  cos_symm : ∀ a b, cos a b = cos b a
  cos_lb : ∀ a b, -1 ≤ cos a b
  cos_ub : ∀ a b, cos a b ≤ 1

/-- Maximum entry of a similarity matrix flattened to a list
(`similarity_matrix.max()`); `0` on the empty list, which the callers
never hit. -/
def listMax : List ℚ → ℚ
  | [] => 0
  | [x] => x
  | x :: y :: t => max x (listMax (y :: t))

/-- `SkillMatcher.get_similarity`: `0.0` if either skill set is empty,
otherwise the maximum pairwise cosine similarity between the encoded
(cleaned) skills of the two sets. -/
def SkillMatcher.get_similarity (m : SkillMatcher)
    (skills1 skills2 : List String) : ℚ :=
  if skills1 = [] ∨ skills2 = [] then 0
  else
    listMax ((skills1.map _clean_skill).flatMap
      (fun a => (skills2.map _clean_skill).map (fun b => m.cos a b)))

/-- `_calculate_contextual_score`: accumulate fixed-weight signals and a
factor count over the profile, returning `score / factors` (`0.0` when no
factor applied).  `wanted_skills` is accepted but, as in the source, not
used. -/
def _calculate_contextual_score (user : User) (wanted_skills : List String) : ℚ :=
  let score1 : ℚ := if user.availability ≠ "" then 0 + 0.2 else 0
  let factors1 : Nat := if user.availability ≠ "" then 1 else 0
  let score2 : ℚ := if user.location ≠ "" then score1 + 0.1 else score1
  let factors2 : Nat := if user.location ≠ "" then factors1 + 1 else factors1
  let filled_fields : Nat :=
    (if user.name ≠ "" then 1 else 0) + (if user.skills_offered ≠ [] then 1 else 0) +
    (if user.skills_wanted ≠ [] then 1 else 0) + (if user.availability ≠ "" then 1 else 0)
  let completeness : ℚ := (filled_fields : ℚ) / 4
  let score3 : ℚ := score2 + completeness * 0.3
  let factors3 : Nat := factors2 + 1
  let score4 : ℚ :=
    if user.skills_offered ≠ [] then
      score3 + min ((user.skills_offered.length : ℚ) / 10) 1 * 0.2
    else score3
  let factors4 : Nat := if user.skills_offered ≠ [] then factors3 + 1 else factors3
  let score5 : ℚ := if user.skills_wanted ≠ [] then score4 + 0.1 else score4
  let factors5 : Nat := if user.skills_wanted ≠ [] then factors4 + 1 else factors4
  if factors5 > 0 then score5 / (factors5 : ℚ) else 0

/-- `match_users`: empty result on empty wanted-skills or empty candidate
list; otherwise score every candidate with non-empty `skills_offered` as
`0.7 * semantic + 0.3 * contextual`, sort stably by descending score, and
take the first `top_k`.  (`mergeSort` with the descending comparator is a
stable sort, hence the same list Python's stable `list.sort(reverse=True)`
produces.) -/
def match_users (m : SkillMatcher) (user_wanted_skills : List String)
    (all_users : List User) (top_k : Nat := 5) : List (User × ℚ) :=
  if user_wanted_skills = [] ∨ all_users = [] then []
  else
    let scored := (all_users.filter (fun u => !u.skills_offered.isEmpty)).map
      (fun u =>
        (u, m.get_similarity user_wanted_skills u.skills_offered * 0.7 +
            _calculate_contextual_score u user_wanted_skills * 0.3))
    (scored.mergeSort (fun x y => decide (y.2 ≤ x.2))).take top_k

/-! ## Regular-expression semantics for the moderation rules

Each Python regex used by `src/moderation.py` is embedded as an executable
function on character lists.  `re.search` success is existence of a match
at some position; `\b` matches where word-character-ness changes
(`\w = [A-Za-z0-9_]`, string edges are non-word); `.` matches every
character except a newline. -/

/-- Python regex `\w` word character. -/
def isWordChar (c : Char) : Bool :=
  c.isAlphanum || c = '_'

/-- Whether the character at position `i` (if any) satisfies `p`;
out-of-range positions fail. -/
def charAtIs (hay : List Char) (i : Nat) (p : Char → Bool) : Bool :=
  match hay[i]? with
  | some c => p c
  | none => false

/-- Every character of `hay` in positions `[a, b)` satisfies `p`. -/
def sliceAll (hay : List Char) (a b : Nat) (p : Char → Bool) : Bool :=
  ((hay.drop a).take (b - a)).all p

/-- The gap that a `.*` must bridge: positions `[a, b)` hold no newline. -/
def noNewlineBetween (hay : List Char) (a b : Nat) : Bool :=
  sliceAll hay a b (fun c => c ≠ '\n')

/-- `\bpat\b` matches at position `i`: the pattern occurs there and the
word-character-ness changes across both of its edges. -/
def wbAt (hay pat : List Char) (i : Nat) : Bool :=
  subAt hay pat i &&
  ((if i = 0 then false else charAtIs hay (i - 1) isWordChar) !=
     charAtIs pat 0 isWordChar) &&
  (charAtIs hay (i + pat.length) isWordChar !=
     charAtIs pat (pat.length - 1) isWordChar)

/-- `re.search(r"\b(a1|a2|...)\b", hay)`: some alternative occurs
word-bounded somewhere. -/
def wordSearch (hay : List Char) (pats : List String) : Bool :=
  pats.any (fun p =>
    (List.range (hay.length + 1)).any (fun i => wbAt hay p.toList i))

/-- `re.search(r"\b(A...)\b.*\b(B...)\b", hay)`: a word-bounded first
alternative, then (after a newline-free gap) a word-bounded second
alternative. -/
def seqSearch (hay : List Char) (as bs : List String) : Bool :=
  (List.range (hay.length + 1)).any (fun i =>
    as.any (fun a =>
      wbAt hay a.toList i &&
      (List.range (hay.length + 1)).any (fun j =>
        decide (i + a.length ≤ j) &&
        noNewlineBetween hay (i + a.length) j &&
        bs.any (fun b => wbAt hay b.toList j))))

/-- `re.search(r"\b(A...)\b.*\b(B...)\b.*\b(C...)\b", hay)`. -/
def seqSearch3 (hay : List Char) (as bs cs : List String) : Bool :=
  (List.range (hay.length + 1)).any (fun i =>
    as.any (fun a =>
      wbAt hay a.toList i &&
      (List.range (hay.length + 1)).any (fun j =>
        decide (i + a.length ≤ j) &&
        noNewlineBetween hay (i + a.length) j &&
        bs.any (fun b =>
          wbAt hay b.toList j &&
          (List.range (hay.length + 1)).any (fun k =>
            decide (j + b.length ≤ k) &&
            noNewlineBetween hay (j + b.length) k &&
            cs.any (fun c => wbAt hay c.toList k))))))

/-- ASCII letter, the `[a-zA-Z]` class (and, under `re.IGNORECASE` on a
lowercased string, the `[A-Z]` class). -/
def isAsciiAlpha (c : Char) : Bool :=
  c.isAlpha

/-- Spam pattern `www\.[a-zA-Z0-9-]+\.[a-zA-Z]{2,}` (searched with
`re.IGNORECASE`; evaluated here on the lowercased content, which is
equivalent). -/
def spam_pattern_url (s : List Char) : Bool :=
  (List.range (s.length + 1)).any (fun i =>
    subAt s "www.".toList i &&
    (List.range (s.length + 1)).any (fun j =>
      decide (i + 5 ≤ j) && decide (j + 3 ≤ s.length) &&
      sliceAll s (i + 4) j (fun c => c.isAlphanum || c = '-') &&
      charAtIs s j (fun c => c = '.') &&
      charAtIs s (j + 1) isAsciiAlpha && charAtIs s (j + 2) isAsciiAlpha))

/-- Spam pattern `[a-zA-Z0-9._%+-]+@[a-zA-Z0-9.-]+\.[a-zA-Z]{2,}`. -/
def spam_pattern_email (s : List Char) : Bool :=
  (List.range (s.length + 1)).any (fun i =>
    charAtIs s i (fun c => c = '@') && decide (1 ≤ i) &&
    charAtIs s (i - 1)
      (fun c => c.isAlphanum || c = '.' || c = '_' || c = '%' || c = '+' || c = '-') &&
    (List.range (s.length + 1)).any (fun j =>
      decide (i + 2 ≤ j) && decide (j + 3 ≤ s.length) &&
      sliceAll s (i + 1) j (fun c => c.isAlphanum || c = '.' || c = '-') &&
      charAtIs s j (fun c => c = '.') &&
      charAtIs s (j + 1) isAsciiAlpha && charAtIs s (j + 2) isAsciiAlpha))

/-- `k` digits starting at position `i`. -/
def digitsAt (s : List Char) (i k : Nat) : Bool :=
  decide (i + k ≤ s.length) && sliceAll s i (i + k) Char.isDigit

/-- An optional `[-.]` separator of length `o ∈ {0, 1}` at position `i`. -/
def sepAt (s : List Char) (i o : Nat) : Bool :=
  if o = 0 then true else charAtIs s i (fun c => c = '-' || c = '.')

/-- Spam pattern `\b\d{3}[-.]?\d{3}[-.]?\d{4}\b` (phone numbers). -/
def spam_pattern_phone (s : List Char) : Bool :=
  (List.range (s.length + 1)).any (fun i =>
    (if i = 0 then true else !charAtIs s (i - 1) isWordChar) &&
    [0, 1].any (fun o1 => [0, 1].any (fun o2 =>
      digitsAt s i 3 && sepAt s (i + 3) o1 &&
      digitsAt s (i + 3 + o1) 3 && sepAt s (i + 6 + o1) o2 &&
      digitsAt s (i + 6 + o1 + o2) 4 &&
      !charAtIs s (i + 10 + o1 + o2) isWordChar)))

/-- Spam pattern `\$\d+` (dollar amounts). -/
def spam_pattern_dollar (s : List Char) : Bool :=
  (List.range (s.length + 1)).any (fun i =>
    charAtIs s i (fun c => c = '$') && charAtIs s (i + 1) Char.isDigit)

/-- Spam pattern `\b(FREE|EARN|MAKE)\b.*\$\d+` under `re.IGNORECASE`
(evaluated on the lowercased content). -/
def spam_pattern_free_money (s : List Char) : Bool :=
  (List.range (s.length + 1)).any (fun i =>
    ["free", "earn", "make"].any (fun w =>
      wbAt s w.toList i &&
      (List.range (s.length + 1)).any (fun j =>
        decide (i + w.length ≤ j) &&
        noNewlineBetween s (i + w.length) j &&
        charAtIs s j (fun c => c = '$') && charAtIs s (j + 1) Char.isDigit)))

/-- The five structural spam regexes of `_check_spam`, counted as in the
source (`pattern_matches`).  They are searched with `re.IGNORECASE`, which
on these patterns is equivalent to searching the lowercased content. -/
def spam_pattern_matches (low : List Char) : Nat :=
  (List.countP (fun b => b)
    [spam_pattern_url low, spam_pattern_email low, spam_pattern_phone low,
     spam_pattern_dollar low, spam_pattern_free_money low])

/-- The eight toxic-language regexes of `_load_toxic_patterns`, each
embedded through the word-bounded search combinators, evaluated on the
lowercased content exactly as `_check_toxicity_rules` does. -/
def toxic_pattern_list (low : List Char) : List Bool :=
  [seqSearch low ["hate", "despise", "loathe"] ["people", "person", "group"],
   seqSearch low ["stupid", "dumb", "idiotic", "moronic"] ["people", "person"],
   seqSearch3 low ["all", "every"] ["women", "men", "girls", "boys"] ["are", "should"],
   seqSearch3 low ["no", "never"] ["hire", "work with", "teach"] ["women", "men"],
   wordSearch low ["kill", "hurt", "harm", "destroy"],
   wordSearch low ["threat", "threaten", "intimidate"],
   wordSearch low ["harass", "stalk", "follow"],
   seqSearch low ["creep", "creepy", "weird"] ["message", "contact"]]

/-- `toxic_matches` of `_check_toxicity_rules`: how many toxic patterns
fire. -/
def toxic_matches (low : List Char) : Nat :=
  List.countP (fun b => b) (toxic_pattern_list low)

/-- The basic profanity list of `_check_toxicity_rules`. -/
def profanity_list : List String :=
  ["damn", "hell", "stupid", "idiot", "moron", "dumb",
   "hate", "kill", "die", "loser", "pathetic"]

/-- `profanity_count`: profanity words occurring (as substrings, per the
source's `word in content_lower`) in the lowercased content. -/
def profanity_count (low : String) : Nat :=
  profanity_list.countP (fun w => strContains low w)

/-- Suspicious pattern `\b(make \$\d+|earn \$\d+)\b.*\b(daily|weekly|monthly)\b`
(on the lowercased content; the trailing `\b` of the alternation forces a
non-word character, or the end of the string, after the digit run). -/
def susp_pattern_money_period (s : List Char) : Bool :=
  (List.range (s.length + 1)).any (fun i =>
    ["make $", "earn $"].any (fun w =>
      (if i = 0 then true else !charAtIs s (i - 1) isWordChar) &&
      subAt s w.toList i &&
      (List.range (s.length + 1)).any (fun k =>
        decide (1 ≤ k) && digitsAt s (i + 6) k &&
        !charAtIs s (i + 6 + k) isWordChar &&
        (List.range (s.length + 1)).any (fun j =>
          decide (i + 6 + k ≤ j) &&
          noNewlineBetween s (i + 6 + k) j &&
          ["daily", "weekly", "monthly"].any (fun b => wbAt s b.toList j)))))

/-- Three alphabetic characters at position `i` (`[A-Z]{3,}` under
`re.IGNORECASE`). -/
def alpha3At (s : List Char) (i : Nat) : Bool :=
  charAtIs s i isAsciiAlpha && charAtIs s (i + 1) isAsciiAlpha &&
  charAtIs s (i + 2) isAsciiAlpha

/-- Suspicious pattern `[A-Z]{3,}.*[A-Z]{3,}.*[A-Z]{3,}` under
`re.IGNORECASE`: under the flag the class matches any letter, so this
fires on three letter runs separated by newline-free gaps. -/
def susp_pattern_caps (s : List Char) : Bool :=
  (List.range (s.length + 1)).any (fun i =>
    alpha3At s i &&
    (List.range (s.length + 1)).any (fun j =>
      decide (i + 3 ≤ j) && noNewlineBetween s (i + 3) j && alpha3At s j &&
      (List.range (s.length + 1)).any (fun k =>
        decide (j + 3 ≤ k) && noNewlineBetween s (j + 3) k && alpha3At s k)))

/-- Suspicious pattern `(.)\1{4,}`: five consecutive equal (non-newline)
characters. -/
def susp_pattern_repeat (s : List Char) : Bool :=
  (List.range (s.length + 1)).any (fun i =>
    decide (i + 5 ≤ s.length) &&
    match s[i]? with
    | some c =>
        c ≠ '\n' && charAtIs s (i + 1) (fun d => d = c) &&
        charAtIs s (i + 2) (fun d => d = c) && charAtIs s (i + 3) (fun d => d = c) &&
        charAtIs s (i + 4) (fun d => d = c)
    | none => false)

/-- Suspicious pattern `(.)(.)\1\2{3,}`: characters `c1 c2 c1 c2 c2 c2`. -/
def susp_pattern_alternating (s : List Char) : Bool :=
  (List.range (s.length + 1)).any (fun i =>
    decide (i + 6 ≤ s.length) &&
    match s[i]?, s[i + 1]? with
    | some c1, some c2 =>
        c1 ≠ '\n' && c2 ≠ '\n' &&
        charAtIs s (i + 2) (fun d => d = c1) && charAtIs s (i + 3) (fun d => d = c2) &&
        charAtIs s (i + 4) (fun d => d = c2) && charAtIs s (i + 5) (fun d => d = c2)
    | _, _ => false)

/-- The nine structural regexes of `_check_suspicious_patterns`, counted as
`pattern_matches` (all searched with `re.IGNORECASE`; evaluated on the
lowercased content, which is equivalent, including for the case-insensitive
backreferences). -/
def susp_pattern_matches (low : List Char) : Nat :=
  List.countP (fun b => b)
    [seqSearch low ["guaranteed", "100%", "promise"] ["money", "income", "profit"],
     wordSearch low ["no risk", "risk free", "safe investment"],
     wordSearch low ["limited time", "act now", "hurry"],
     seqSearch low ["secret", "hidden", "exclusive"] ["method", "technique", "system"],
     susp_pattern_money_period low,
     seqSearch low ["work from home", "remote work"] ["easy", "simple", "no experience"],
     susp_pattern_caps low,
     susp_pattern_repeat low,
     susp_pattern_alternating low]

/-- `[!?]` class of the excessive-punctuation rule. -/
def isPunctQ (c : Char) : Bool :=
  c = '!' || c = '?'

/-- Helper for `punct_runs`: scan with the length of the current `!`/`?`
run; each maximal run of length at least two contributes one match. -/
def punct_runs_aux : List Char → Nat → Nat
  | [], run => if 2 ≤ run then 1 else 0
  | c :: rest, run =>
      if isPunctQ c then punct_runs_aux rest (run + 1)
      else (if 2 ≤ run then 1 else 0) + punct_runs_aux rest 0

/-- `len(re.findall(r"[!?]{2,}", content))`: with the greedy quantifier,
each maximal run of `!`/`?` of length at least two yields exactly one
match, so the count is the number of such runs. -/
def punct_runs (l : List Char) : Nat :=
  punct_runs_aux l 0

/-- `len(re.findall(r"[emoji ranges]", content))`: one match per character
inside the four Unicode emoji ranges of the source. -/
def emoji_count (l : List Char) : Nat :=
  l.countP (fun c =>
    (0x1F600 ≤ c.toNat && c.toNat ≤ 0x1F64F) ||
    (0x1F300 ≤ c.toNat && c.toNat ≤ 0x1F5FF) ||
    (0x1F680 ≤ c.toNat && c.toNat ≤ 0x1F6FF) ||
    (0x1F1E0 ≤ c.toNat && c.toNat ≤ 0x1F1FF))

/-! ## The moderation engine (`src/moderation.py`) -/

/-- `ModerationResult` dataclass. -/
structure ModerationResult where
  is_flagged : Bool
  confidence : ℚ
  categories : List String
  reason : String
  cleaned_content : Option String := none
deriving Repr, DecidableEq

/-- The outcome dict of `_check_spam`. -/
structure SpamCheck where
  is_spam : Bool
  confidence : ℚ
  reason : String

/-- The outcome dict of `_check_toxicity` / `_check_toxicity_rules`. -/
structure ToxCheck where
  is_toxic : Bool
  confidence : ℚ
  reason : String

/-- The outcome dict of `_check_inappropriate`. -/
structure InapCheck where
  is_inappropriate : Bool
  confidence : ℚ
  reason : String

/-- The outcome dict of `_check_suspicious_patterns`. -/
structure SuspCheck where
  is_suspicious : Bool
  confidence : ℚ
  reason : String

/-- The per-category scores of the Detoxify classifier, constrained by its
documented contract to lie in `[0, 1]`. -/
structure ToxScores where
  toxicity : ℚ
  severe_toxicity : ℚ
  obscene : ℚ
  threat : ℚ
  insult : ℚ
  identity_attack : ℚ
  toxicity_mem : 0 ≤ toxicity ∧ toxicity ≤ 1
  severe_toxicity_mem : 0 ≤ severe_toxicity ∧ severe_toxicity ≤ 1
  obscene_mem : 0 ≤ obscene ∧ obscene ≤ 1
  threat_mem : 0 ≤ threat ∧ threat ≤ 1
  insult_mem : 0 ≤ insult ∧ insult ≤ 1
  identity_attack_mem : 0 ≤ identity_attack ∧ identity_attack ≤ 1

/-- `ContentModerator`: its only per-instance state is the Detoxify model
handle.  `none` is a moderator whose model failed to load; a loaded model
is a prediction function, with a `none` prediction standing for a raised
exception on that input. -/
structure ContentModerator where
  detoxify_model : Option (String → Option ToxScores)

/-- `_load_spam_keywords`. -/
def spam_keywords : List String :=
  ["make money", "get rich", "work from home", "easy money",
   "guaranteed income", "no experience needed", "click here",
   "free money", "earn cash", "passive income",
   "contact me", "email me", "call me", "whatsapp",
   "telegram", "discord", "skype", "zoom meeting",
   "too good to be true", "limited time", "act now",
   "special offer", "exclusive deal", "secret method",
   "buy now", "sale", "discount", "promo code",
   "affiliate", "referral", "commission",
   "adult content", "xxx", "mature", "nsfw",
   "dating", "romance", "relationship advice"]

/-- `ContentModerator._check_spam`. -/
def _check_spam (content : String) : SpamCheck :=
  let content_lower := pyLower content
  let matched_keywords := spam_keywords.filter (fun k => strContains content_lower k)
  let spam_count := matched_keywords.length
  let pattern_matches := spam_pattern_matches (content_lower.toList)
  let total_words := (pySplit content).length
  let spam_ratio : ℚ := (spam_count : ℚ) / (max total_words 1 : Nat)
  let is_spam := decide (2 ≤ spam_count) || decide ((3 : ℚ)/10 < spam_ratio) ||
    decide (2 ≤ pattern_matches)
  let confidence := min (spam_ratio * 2 + (pattern_matches : ℚ) * 0.3) 1
  let r1 :=
    if 0 < spam_count then
      "Contains spam keywords: " ++ String.intercalate ", " (matched_keywords.take 3)
    else ""
  let r2 :=
    if 0 < pattern_matches then
      r1 ++ (if r1 ≠ "" then "; " else "") ++ "Contains suspicious patterns"
    else r1
  { is_spam := is_spam, confidence := confidence,
    reason := if r2 = "" then "No spam detected" else r2 }

/-- `ContentModerator._check_toxicity_rules` (the rule-based fallback). -/
def _check_toxicity_rules (content : String) : ToxCheck :=
  let content_lower := pyLower content
  let tox := toxic_matches content_lower.toList
  let prof := profanity_count content_lower
  let is_toxic := decide (0 < tox) || decide (2 ≤ prof)
  let confidence := min ((tox : ℚ) * 0.4 + (prof : ℚ) * 0.2) 1
  let r1 := if 0 < tox then "Contains toxic language patterns" else ""
  let r2 :=
    if 0 < prof then
      r1 ++ (if r1 ≠ "" then "; " else "") ++ "Contains " ++ toString prof ++
        " potentially offensive words"
    else r1
  { is_toxic := is_toxic, confidence := confidence,
    reason := if r2 = "" then "No toxicity detected" else r2 }

/-- The maximum of the six Detoxify category scores
(`max(toxicity_scores.values())`). -/
def ToxScores.max_score (t : ToxScores) : ℚ :=
  max t.toxicity (max t.severe_toxicity (max t.obscene
    (max t.threat (max t.insult t.identity_attack))))

/-- The classifier branch of `_check_toxicity`: thresholds and reason as in
the source. -/
def detoxify_verdict (t : ToxScores) : ToxCheck :=
  let is_toxic := decide ((6 : ℚ)/10 < t.toxicity) || decide ((3 : ℚ)/10 < t.severe_toxicity) ||
    decide ((1 : ℚ)/2 < t.threat) || decide ((1 : ℚ)/2 < t.insult) ||
    decide ((1 : ℚ)/2 < t.identity_attack)
  let flagged :=
    (if (1 : ℚ)/2 < t.toxicity then ["toxicity"] else []) ++
    (if (1 : ℚ)/2 < t.severe_toxicity then ["severe_toxicity"] else []) ++
    (if (1 : ℚ)/2 < t.obscene then ["obscene"] else []) ++
    (if (1 : ℚ)/2 < t.threat then ["threat"] else []) ++
    (if (1 : ℚ)/2 < t.insult then ["insult"] else []) ++
    (if (1 : ℚ)/2 < t.identity_attack then ["identity_attack"] else [])
  { is_toxic := is_toxic, confidence := t.max_score,
    reason :=
      if flagged ≠ [] then "AI detected: " ++ String.intercalate ", " flagged
      else "No toxicity detected" }

/-- `ContentModerator._check_toxicity`: the classifier when it is loaded
and its prediction succeeds, otherwise the rule-based fallback. -/
def ContentModerator._check_toxicity (m : ContentModerator) (content : String) : ToxCheck :=
  match m.detoxify_model with
  | some f =>
      match f content with
      | some scores => detoxify_verdict scores
      | none => _check_toxicity_rules content
  | none => _check_toxicity_rules content

/-- The category keyword table of `_check_inappropriate`. -/
def inappropriate_keywords (category : String) : List String :=
  if category = "adult" then ["adult", "mature", "nsfw", "xxx", "18+", "explicit"]
  else if category = "dating" then ["dating", "romance", "hookup", "singles", "flirt"]
  else if category = "financial" then ["bitcoin", "crypto", "investment", "trading", "forex"]
  else if category = "medical" then ["medical advice", "diagnosis", "prescription", "treatment"]
  else if category = "legal" then ["legal advice", "lawyer", "lawsuit", "litigation"]
  else if category = "religious" then ["convert", "salvation", "prophet", "blessed"]
  else if category = "political" then ["vote for", "election", "candidate", "political party"]
  else []

/-- `ContentModerator._check_inappropriate`: the active category subset
depends on the content type (`skill` is stricter). -/
def _check_inappropriate (content content_type : String) : InapCheck :=
  let content_lower := pyLower content
  let cats := if content_type = "skill" then ["adult", "dating"] else ["adult"]
  let hits := cats.map (fun c =>
    (c, (inappropriate_keywords c).countP (fun k => strContains content_lower k)))
  let flagged := (hits.filter (fun h => 0 < h.2)).map (fun h => h.1)
  let total_matches := ((hits.filter (fun h => 0 < h.2)).map (fun h => h.2)).sum
  { is_inappropriate := decide (flagged ≠ []),
    confidence := min ((total_matches : ℚ) * 0.3) 1,
    reason :=
      if flagged ≠ [] then
        "Contains inappropriate content: " ++ String.intercalate ", " flagged
      else "Content is appropriate" }

/-- `ContentModerator._check_suspicious_patterns`. -/
def _check_suspicious_patterns (content : String) : SuspCheck :=
  let low := (pyLower content).toList
  let pattern_matches := susp_pattern_matches low
  let punctuation_ratio : ℚ :=
    (punct_runs content.toList : ℚ) / (max content.toList.length 1 : Nat)
  let emojis := emoji_count content.toList
  let is_suspicious := decide (2 ≤ pattern_matches) ||
    decide ((1 : ℚ)/10 < punctuation_ratio) || decide (10 < emojis)
  let confidence :=
    min ((pattern_matches : ℚ) * 0.3 + punctuation_ratio * 2 + (emojis : ℚ) * 0.05) 1
  let r1 :=
    if 0 < pattern_matches then
      "Contains " ++ toString pattern_matches ++ " suspicious patterns"
    else ""
  let r2 :=
    if (1 : ℚ)/10 < punctuation_ratio then
      r1 ++ (if r1 ≠ "" then "; " else "") ++ "Excessive punctuation"
    else r1
  let r3 :=
    if 10 < emojis then
      r2 ++ (if r2 ≠ "" then "; " else "") ++ "Excessive emojis (" ++
        toString emojis ++ ")"
    else r2
  { is_suspicious := is_suspicious, confidence := confidence,
    reason := if r3 = "" then "No suspicious patterns detected" else r3 }

/-- Flush a completed `!`/`?` run for `sub_excess_punct`: a maximal run of
length at least three becomes a single `!`, shorter runs are kept. -/
def flush_punct_run (run : List Char) : List Char :=
  if 3 ≤ run.length then ['!'] else run

/-- Helper for `sub_excess_punct`: scan accumulating the current `!`/`?`
run (in order). -/
def sub_excess_punct_aux : List Char → List Char → List Char
  | [], run => flush_punct_run run
  | c :: rest, run =>
      if isPunctQ c then sub_excess_punct_aux rest (run ++ [c])
      else flush_punct_run run ++ c :: sub_excess_punct_aux rest []

/-- `re.sub(r"[!?]{3,}", "!", content)`: each maximal `!`/`?` run of length
at least three (leftmost-longest greedy match) is replaced by a single
`!`. -/
def sub_excess_punct (l : List Char) : List Char :=
  sub_excess_punct_aux l []

/-- Python `word.isupper() and word.isalpha()` for the all-caps test of
`_clean_content`: a non-empty all-letter word whose letters are all upper
case. -/
def isCapsWord (w : String) : Bool :=
  w.toList.all Char.isUpper && w.toList.all Char.isAlpha && !w.toList.isEmpty

/-- `word.lower().capitalize()`. -/
def capitalizeLower (w : String) : String :=
  match (pyLower w).toList with
  | [] => ""
  | c :: rest => ⟨c.toUpper :: rest⟩

/-- Helper for `collapseWS`: the flag records whether the previous
character belonged to a whitespace run already emitted as one space. -/
def collapseWS_aux : List Char → Bool → List Char
  | [], _ => []
  | c :: rest, inRun =>
      if isPyWhitespace c then
        if inRun then collapseWS_aux rest true
        else ' ' :: collapseWS_aux rest true
      else c :: collapseWS_aux rest false

/-- `re.sub(r"\s+", " ", content)`: collapse every whitespace run to one
space. -/
def collapseWS (l : List Char) : List Char :=
  collapseWS_aux l false

/-- `ContentModerator._clean_content`: cap repeated punctuation, title-case
long all-caps words, collapse whitespace. -/
def _clean_content (content : String) : String :=
  let step1 : String := ⟨sub_excess_punct content.toList⟩
  let words := pySplit step1
  let cleaned_words := words.map (fun w =>
    if 3 < w.length && isCapsWord w then capitalizeLower w else w)
  let step2 := String.intercalate " " cleaned_words
  pyStrip ⟨collapseWS step2.toList⟩

/-- The four checks `moderate_content` runs, bundled so that the
aggregator can be stated (and the empty-content early return proved) for
arbitrary check outcomes. -/
structure ModChecks where
  spam : String → SpamCheck
  toxicity : String → ToxCheck
  inappropriate : String → String → InapCheck
  suspicious : String → SuspCheck

/-- The aggregator body of `ContentModerator.moderate_content`, with the
four checks as a parameter: empty/whitespace-only content returns the
fixed non-flagged verdict before any check is consulted; otherwise the
checks run on the stripped content and their outcomes are merged exactly
as in the source. -/
def moderate_with (checks : ModChecks) (content : String)
    (content_type : String) : ModerationResult :=
  if pyStrip content = "" then
    { is_flagged := false, confidence := 0, categories := [],
      reason := "Empty content" }
  else
    let c := pyStrip content
    let sr := checks.spam c
    let tr := checks.toxicity c
    let ir := checks.inappropriate c content_type
    let ur := checks.suspicious c
    let flagged_categories :=
      (if sr.is_spam then ["spam"] else []) ++
      (if tr.is_toxic then ["toxic"] else []) ++
      (if ir.is_inappropriate then ["inappropriate"] else []) ++
      (if ur.is_suspicious then ["suspicious"] else [])
    let m1 : ℚ := if sr.is_spam then max 0 sr.confidence else 0
    let m2 : ℚ := if tr.is_toxic then max m1 tr.confidence else m1
    let m3 : ℚ := if ir.is_inappropriate then max m2 ir.confidence else m2
    let m4 : ℚ := if ur.is_suspicious then max m3 ur.confidence else m3
    let reasons :=
      (if sr.is_spam then [sr.reason] else []) ++
      (if tr.is_toxic then [tr.reason] else []) ++
      (if ir.is_inappropriate then [ir.reason] else []) ++
      (if ur.is_suspicious then [ur.reason] else [])
    let is_flagged := decide (0 < flagged_categories.length)
    { is_flagged := is_flagged,
      confidence := m4,
      categories := flagged_categories,
      reason :=
        if reasons ≠ [] then String.intercalate "; " reasons
        else "Content passed moderation",
      cleaned_content := if is_flagged then none else some (_clean_content c) }

/-- The concrete checks of a given moderator instance. -/
def realChecks (m : ContentModerator) : ModChecks :=
  { spam := _check_spam,
    toxicity := m._check_toxicity,
    inappropriate := _check_inappropriate,
    suspicious := _check_suspicious_patterns }

/-- `ContentModerator.moderate_content`. -/
def ContentModerator.moderate_content (m : ContentModerator) (content : String)
    (content_type : String := "general") : ModerationResult :=
  moderate_with (realChecks m) content content_type

/-- Module-level `is_spammy` of `src/moderation.py` (the moderator, a
global in the source, is a parameter here): flagged and the triggered
categories meet `{spam, suspicious}`. -/
def is_spammy (m : ContentModerator) (content : String) : Bool :=
  if content = "" then false
  else
    let result := m.moderate_content content "general"
    result.is_flagged &&
      (result.categories.contains "spam" || result.categories.contains "suspicious")

/-- A moderator whose Detoxify model is unavailable (failed import/load),
so that every toxicity check takes the rule-based path. -/
def modNone : ContentModerator := ⟨none⟩

/-! ## Basic facts about the embedded operations -/

theorem listMax_mem : ∀ {l : List ℚ}, l ≠ [] → listMax l ∈ l
  | [], h => absurd rfl h
  | [x], _ => by simp [listMax]
  | x :: y :: t, _ => by
      rcases max_choice x (listMax (y :: t)) with h | h
      · simp [listMax, h]
      · have := @listMax_mem (y :: t) (by simp)
        simp only [listMax, h]
        exact List.mem_cons_of_mem _ this

theorem le_listMax : ∀ {l : List ℚ} {x : ℚ}, x ∈ l → x ≤ listMax l
  | [], x, h => absurd h (by simp)
  | [y], x, h => by
      simp at h
      simp [listMax, h]
  | y :: z :: t, x, h => by
      rcases List.mem_cons.mp h with h | h
      · simp [listMax, h, le_max_left]
      · have := @le_listMax (z :: t) x h
        simp only [listMax]
        exact le_trans this (le_max_right _ _)


theorem filled_fields_le_four (u : User) :
    ((if u.name ≠ "" then 1 else 0) + (if u.skills_offered ≠ [] then 1 else 0) +
     (if u.skills_wanted ≠ [] then 1 else 0) + (if u.availability ≠ "" then 1 else 0) : Nat) ≤ 4 := by
  split_ifs <;> omega

theorem contextual_score_nonneg (u : User) (w : List String) :
    0 ≤ _calculate_contextual_score u w := by
  have hM0 : (0 : ℚ) ≤ min ((u.skills_offered.length : ℚ) / 10) 1 :=
    le_min (by positivity) (by norm_num)
  simp only [_calculate_contextual_score]
  split_ifs <;> first
    | positivity
    | norm_num
    | (apply div_nonneg _ (by positivity); nlinarith [hM0])

set_option maxHeartbeats 1600000 in
theorem contextual_score_le_one (u : User) (w : List String) :
    _calculate_contextual_score u w ≤ 1 := by
  have hM0 : (0 : ℚ) ≤ min ((u.skills_offered.length : ℚ) / 10) 1 :=
    le_min (by positivity) (by norm_num)
  have hM1 : min ((u.skills_offered.length : ℚ) / 10) 1 ≤ 1 := min_le_right _ _
  simp only [_calculate_contextual_score]
  split_ifs <;> first
    | (apply div_le_one_of_le <;> nlinarith [hM0, hM1])
    | norm_num

theorem get_similarity_bounds (m : SkillMatcher) (s1 s2 : List String) :
    -1 ≤ m.get_similarity s1 s2 ∧ m.get_similarity s1 s2 ≤ 1 := by
  unfold SkillMatcher.get_similarity
  split
  · norm_num
  · next h =>
    push_neg at h
    obtain ⟨h1, h2⟩ := h
    set l := (s1.map _clean_skill).flatMap
      (fun a => (s2.map _clean_skill).map (fun b => m.cos a b)) with hl
    have hne : l ≠ [] := by
      rcases s1 with _ | ⟨a, t1⟩
      · exact absurd rfl h1
      · rcases s2 with _ | ⟨b, t2⟩
        · exact absurd rfl h2
        · simp [hl]
    have hmem := listMax_mem hne
    rw [hl] at hmem
    rcases List.mem_flatMap.mp hmem with ⟨a, _, hb⟩
    rcases List.mem_map.mp hb with ⟨b, _, hv⟩
    constructor
    · rw [← hl] at hv
      rw [← hv]
      exact m.cos_lb a b
    · rw [← hl] at hv
      rw [← hv]
      exact m.cos_ub a b

theorem spam_confidence_bounds (c : String) :
    0 ≤ (_check_spam c).confidence ∧ (_check_spam c).confidence ≤ 1 := by
  unfold _check_spam
  refine ⟨le_min ?_ ?_, min_le_right _ _⟩
  · have h1 : (0 : ℚ) ≤ ((spam_keywords.filter
        (fun k => strContains (pyLower c) k)).length : ℚ) /
        ((max (pySplit c).length 1 : Nat) : ℚ) := by positivity
    have h2 : (0 : ℚ) ≤ (spam_pattern_matches (pyLower c).toList : ℚ) * 0.3 := by
      positivity
    nlinarith
  · norm_num

theorem toxicity_rules_confidence_bounds (c : String) :
    0 ≤ (_check_toxicity_rules c).confidence ∧ (_check_toxicity_rules c).confidence ≤ 1 := by
  unfold _check_toxicity_rules
  dsimp only
  refine ⟨le_min ?_ ?_, min_le_right _ _⟩
  · positivity
  · norm_num

theorem toxscores_bounds (t : ToxScores) : 0 ≤ t.max_score ∧ t.max_score ≤ 1 := by
  unfold ToxScores.max_score
  obtain ⟨h1a, h1b⟩ := t.toxicity_mem
  obtain ⟨h2a, h2b⟩ := t.severe_toxicity_mem
  obtain ⟨h3a, h3b⟩ := t.obscene_mem
  obtain ⟨h4a, h4b⟩ := t.threat_mem
  obtain ⟨h5a, h5b⟩ := t.insult_mem
  obtain ⟨h6a, h6b⟩ := t.identity_attack_mem
  constructor
  · exact le_trans h1a (le_max_left _ _)
  · exact max_le h1b (max_le h2b (max_le h3b (max_le h4b (max_le h5b h6b))))

theorem toxicity_confidence_bounds (m : ContentModerator) (c : String) :
    0 ≤ (m._check_toxicity c).confidence ∧ (m._check_toxicity c).confidence ≤ 1 := by
  unfold ContentModerator._check_toxicity
  rcases m.detoxify_model with _ | f
  · exact toxicity_rules_confidence_bounds c
  · simp only []
    rcases f c with _ | t
    · exact toxicity_rules_confidence_bounds c
    · exact toxscores_bounds t

theorem inappropriate_confidence_bounds (c t : String) :
    0 ≤ (_check_inappropriate c t).confidence ∧ (_check_inappropriate c t).confidence ≤ 1 := by
  unfold _check_inappropriate
  dsimp only
  refine ⟨le_min ?_ ?_, min_le_right _ _⟩
  · apply mul_nonneg _ (by norm_num)
    apply List.sum_nonneg
    intro x hx
    rcases List.mem_map.mp hx with ⟨h, _, rfl⟩
    exact Nat.cast_nonneg _
  · norm_num

theorem suspicious_confidence_bounds (c : String) :
    0 ≤ (_check_suspicious_patterns c).confidence ∧
      (_check_suspicious_patterns c).confidence ≤ 1 := by
  unfold _check_suspicious_patterns
  refine ⟨le_min ?_ ?_, min_le_right _ _⟩
  · have h1 : (0 : ℚ) ≤ (susp_pattern_matches ((pyLower c).toList) : ℚ) * 0.3 := by
      positivity
    have h2 : (0 : ℚ) ≤ ((punct_runs c.toList : ℚ) /
        ((max c.toList.length 1 : Nat) : ℚ)) * 2 := by positivity
    have h3 : (0 : ℚ) ≤ (emoji_count c.toList : ℚ) * 0.05 := by positivity
    nlinarith
  · norm_num

theorem conf_step_bounds {b : Bool} {acc conf : ℚ}
    (hacc : 0 ≤ acc ∧ acc ≤ 1) (hconf : 0 ≤ conf ∧ conf ≤ 1) :
    0 ≤ (if b then max acc conf else acc) ∧ (if b then max acc conf else acc) ≤ 1 := by
  cases b
  · simpa using hacc
  · simp only [if_true]
    exact ⟨le_trans hacc.1 (le_max_left _ _), max_le hacc.2 hconf.2⟩

theorem moderate_confidence_bounds (m : ContentModerator) (content ct : String) :
    0 ≤ (m.moderate_content content ct).confidence ∧
      (m.moderate_content content ct).confidence ≤ 1 := by
  unfold ContentModerator.moderate_content moderate_with
  split
  · norm_num
  · simp only [realChecks]
    exact conf_step_bounds
      (conf_step_bounds
        (conf_step_bounds
          (conf_step_bounds ⟨le_refl 0, by norm_num⟩ (spam_confidence_bounds _))
          (toxicity_confidence_bounds m _))
        (inappropriate_confidence_bounds _ _))
      (suspicious_confidence_bounds _)

theorem pairs_ne_nil (f : String → String → ℚ) {A B : List String}
    (hA : A ≠ []) (hB : B ≠ []) :
    (A.map _clean_skill).flatMap (fun a => (B.map _clean_skill).map (fun b => f a b)) ≠ [] := by
  rcases A with _ | ⟨a, tA⟩
  · exact absurd rfl hA
  · rcases B with _ | ⟨b, tB⟩
    · exact absurd rfl hB
    · simp

theorem listMax_pairs_le (m : SkillMatcher) {A B : List String}
    (hA : A ≠ []) (hB : B ≠ []) :
    listMax ((A.map _clean_skill).flatMap
        (fun a => (B.map _clean_skill).map (fun b => m.cos a b))) ≤
      listMax ((B.map _clean_skill).flatMap
        (fun b => (A.map _clean_skill).map (fun a => m.cos b a))) := by
  have hmem := listMax_mem (pairs_ne_nil m.cos hA hB)
  rcases List.mem_flatMap.mp hmem with ⟨a, ha, hb⟩
  rcases List.mem_map.mp hb with ⟨b, hbB, hv⟩
  rw [← hv, m.cos_symm a b]
  exact le_listMax (List.mem_flatMap.mpr ⟨b, hbB, List.mem_map.mpr ⟨a, ha, rfl⟩⟩)

/-- C10: set similarity is commutative: swapping the two skill lists leaves
`get_similarity` unchanged, because the maximum entry of the pairwise
cosine-similarity matrix is invariant under transposition (cosine being a
symmetric function of its two texts). -/
theorem get_similarity_comm (m : SkillMatcher) (A B : List String) :
    m.get_similarity A B = m.get_similarity B A := by
  unfold SkillMatcher.get_similarity
  by_cases hA : A = []
  · by_cases hB : B = [] <;> simp [hA, hB]
  · by_cases hB : B = []
    · simp [hA, hB]
    · rw [if_neg (by tauto), if_neg (by tauto)]
      exact le_antisymm (listMax_pairs_le m hA hB) (listMax_pairs_le m hB hA)

/-- C8: `match_users` returns the empty sequence whenever the wanted-skills
list is empty, and whenever the candidate list is empty. -/
theorem match_users_empty_inputs :
    (∀ (m : SkillMatcher) (users : List User) (k : Nat),
        match_users m [] users k = []) ∧
    (∀ (m : SkillMatcher) (wanted : List String) (k : Nat),
        match_users m wanted [] k = []) := by
  constructor
  · intro m users k
    simp [match_users]
  · intro m wanted k
    simp [match_users]

/-- C4: the top-K contract of `match_users`: at most
`min k (number of candidates with non-empty skills_offered)` results,
sorted non-increasing by score, and no candidate with empty
`skills_offered` ever appears. -/
theorem match_users_topk_contract (m : SkillMatcher) (wanted : List String)
    (users : List User) (k : Nat) :
    (match_users m wanted users k).length ≤
        min k (users.countP (fun u => !u.skills_offered.isEmpty)) ∧
      List.Pairwise (fun x y : User × ℚ => y.2 ≤ x.2) (match_users m wanted users k) ∧
      (match_users m wanted users k).all (fun p => !p.1.skills_offered.isEmpty) = true := by
  unfold match_users
  split
  · simp
  · refine ⟨?_, ?_, ?_⟩
    · rw [List.length_take, List.length_mergeSort, List.length_map,
        List.countP_eq_length_filter]
    · have hsorted := @List.sorted_mergeSort (User × ℚ)
        (fun x y : User × ℚ => decide (y.2 ≤ x.2))
        (fun a b c hab hbc => by
          simp only [decide_eq_true_eq] at *
          exact le_trans hbc hab)
        (fun a b => by
          simp only [Bool.or_eq_true, decide_eq_true_eq]
          exact le_total b.2 a.2)
        ((users.filter (fun u => !u.skills_offered.isEmpty)).map
          (fun u =>
            (u, m.get_similarity wanted u.skills_offered * 0.7 +
                _calculate_contextual_score u wanted * 0.3)))
      have := List.Pairwise.sublist (List.take_sublist k _) hsorted
      exact this.imp (fun h => of_decide_eq_true h)
    · rw [List.all_eq_true]
      intro p hp
      have hp2 := (List.take_sublist _ _).subset hp
      rw [List.mem_mergeSort] at hp2
      rcases List.mem_map.mp hp2 with ⟨u, hu, rfl⟩
      exact (List.mem_filter.mp hu).2

theorem match_users_scores_in_range (m : SkillMatcher) (wanted : List String)
    (users : List User) (k : Nat) :
    (match_users m wanted users k).all
      (fun p => decide (-1 ≤ p.2 ∧ p.2 ≤ 1)) = true := by
  unfold match_users
  split
  · simp
  · rw [List.all_eq_true]
    intro p hp
    have hp2 := (List.take_sublist _ _).subset hp
    rw [List.mem_mergeSort] at hp2
    rcases List.mem_map.mp hp2 with ⟨u, _, rfl⟩
    have hsim := get_similarity_bounds m wanted u.skills_offered
    have hc0 := contextual_score_nonneg u wanted
    have hc1 := contextual_score_le_one u wanted
    rw [decide_eq_true_eq]
    constructor
    · nlinarith [hsim.1, hsim.2]
    · nlinarith [hsim.1, hsim.2]

/-- A matcher whose (contract-conforming) cosine oracle is constantly
`-1`: two texts whose embeddings point in opposite directions. -/
def cmNeg : SkillMatcher :=
  { cos := fun _ _ => -1,
    cos_symm := fun _ _ => rfl,
    cos_lb := fun _ _ => le_refl (-1),
    cos_ub := fun _ _ => by norm_num }

/-- C1 (counterexample): `get_similarity` is not clamped to `[0, 1]`: it
returns the raw maximum cosine similarity, which is `-1` for a
contract-conforming encoder placing the two skills in opposite directions,
so the claimed lower bound `0` fails. -/
theorem get_similarity_not_clamped_counterexample :
    cmNeg.get_similarity ["a"] ["b"] = -1 ∧
      ¬ (0 ≤ cmNeg.get_similarity ["a"] ["b"] ∧ cmNeg.get_similarity ["a"] ["b"] ≤ 1) := by
  constructor
  · decide
  · decide

/-- C1 (amended): every confidence returned by `moderate_content` lies in
`[0, 1]`; every similarity returned by `get_similarity` and every match
score returned by `match_users` lies in `[-1, 1]` (they are raw
cosine-based values, never clamped below at `0`, so they can be
negative). -/
theorem score_bounds_amended :
    (∀ (m : SkillMatcher) (A B : List String),
        -1 ≤ m.get_similarity A B ∧ m.get_similarity A B ≤ 1) ∧
    (∀ (m : SkillMatcher) (wanted : List String) (users : List User) (k : Nat),
        (match_users m wanted users k).all
          (fun p => decide (-1 ≤ p.2 ∧ p.2 ≤ 1)) = true) ∧
    (∀ (mo : ContentModerator) (content ct : String),
        0 ≤ (mo.moderate_content content ct).confidence ∧
          (mo.moderate_content content ct).confidence ≤ 1) :=
  ⟨get_similarity_bounds, match_users_scores_in_range, moderate_confidence_bounds⟩

/-- The contextual score as the specification words it (claim C6): one
term and one factor per applicable signal — availability `0.2`, location
`0.1`, completeness over the four profile fields times `0.3`, capped
offered-skill diversity times `0.2`, and `0.1` for having any wanted
skills — with the result `sum / count`, and `0.0` for an empty count.
This definition is written from the spec text, to be compared with the
source-derived `_calculate_contextual_score`. -/
def contextual_score_spec (user : User) : ℚ :=
  let completeness : ℚ :=
    (((if user.name ≠ "" then 1 else 0) + (if user.skills_offered ≠ [] then 1 else 0) +
      (if user.skills_wanted ≠ [] then 1 else 0) +
      (if user.availability ≠ "" then 1 else 0) : Nat) : ℚ) / 4
  let diversity : ℚ := min ((user.skills_offered.length : ℚ) / 10) 1
  let terms : List ℚ :=
    (if user.availability ≠ "" then [0.2] else []) ++
    (if user.location ≠ "" then [0.1] else []) ++
    [completeness * 0.3] ++
    (if user.skills_offered ≠ [] then [diversity * 0.2] else []) ++
    (if user.skills_wanted ≠ [] then [0.1] else [])
  if terms.length = 0 then 0 else terms.sum / (terms.length : ℚ)

/-- C6: the source's accumulator-based contextual score coincides, for
every candidate profile and wanted-skills list, with the spec's
description (sum of the applicable weighted signals divided by the number
of applicable factors, `0.0` when none applies). -/
theorem contextual_score_matches_spec (u : User) (w : List String) :
    _calculate_contextual_score u w = contextual_score_spec u := by
  unfold _calculate_contextual_score contextual_score_spec
  by_cases hA : u.availability ≠ "" <;> by_cases hL : u.location ≠ "" <;>
    by_cases hO : u.skills_offered ≠ [] <;> by_cases hW : u.skills_wanted ≠ [] <;>
    simp [hA, hL, hO, hW] <;> ring_nf <;> norm_num

/-- C2: for every content string, content type and moderator state, the
verdict of `moderate_content` is flagged exactly when its category list is
non-empty. -/
theorem moderation_flag_iff_categories_nonempty (m : ContentModerator)
    (content ct : String) :
    (m.moderate_content content ct).is_flagged = true ↔
      (m.moderate_content content ct).categories ≠ [] := by
  unfold ContentModerator.moderate_content moderate_with
  split
  · simp
  · simp [List.length_pos]
    generalize ((realChecks m).spam (pyStrip content)).is_spam = a
    generalize ((realChecks m).toxicity (pyStrip content)).is_toxic = b
    generalize ((realChecks m).inappropriate (pyStrip content) ct).is_inappropriate = c
    generalize ((realChecks m).suspicious (pyStrip content)).is_suspicious = d
    cases a <;> cases b <;> cases c <;> cases d <;> simp

/-- C9: whenever the verdict of `moderate_content` is flagged, its
`cleaned_content` is `none`; the normalized content is only ever attached
to non-flagged verdicts. -/
theorem flagged_implies_no_cleaned_content (m : ContentModerator)
    (content ct : String)
    (h : (m.moderate_content content ct).is_flagged = true) :
    (m.moderate_content content ct).cleaned_content = none := by
  revert h
  unfold ContentModerator.moderate_content moderate_with
  split
  · intro h
    simp at h
  · intro h
    simp only at h ⊢
    rw [if_pos h]

/-- Witness for C9 at a flagged input: "dating coach available" is flagged
(spam), and the verdict's `cleaned_content` is `none`. -/
theorem flagged_implies_no_cleaned_content_witness :
    (modNone.moderate_content "dating coach available" "general").is_flagged = true ∧
      (modNone.moderate_content "dating coach available" "general").cleaned_content = none :=
  ⟨by decide,
   flagged_implies_no_cleaned_content modNone "dating coach available" "general" (by decide)⟩

/-- C3 (counterexample): on empty content the verdict's reason is the
capitalized string "Empty content", not the claimed lowercase
"empty content". -/
theorem empty_content_reason_counterexample :
    (modNone.moderate_content "" "general").reason = "Empty content" ∧
      ¬ ((modNone.moderate_content "" "general").reason = "empty content") := by
  constructor
  · decide
  · decide

/-- C3 (amended): for every content string that is empty or whitespace-only
and for arbitrary outcomes of the four checks, the aggregator returns the
fixed verdict `is_flagged = false`, `confidence = 0.0`, no categories and
reason "Empty content" (capital E), without consulting any check — the
result is the same for every `ModChecks`. -/
theorem empty_content_early_return (checks : ModChecks) (content ct : String)
    (h : pyStrip content = "") :
    moderate_with checks content ct =
      { is_flagged := false, confidence := 0, categories := [],
        reason := "Empty content", cleaned_content := none } := by
  unfold moderate_with
  rw [if_pos h]

/-- Witness for C3 at the whitespace-only input `"  "` with the real
checks of a moderator. -/
theorem empty_content_early_return_witness :
    pyStrip "  " = "" ∧
      moderate_with (realChecks modNone) "  " "general" =
        { is_flagged := false, confidence := 0, categories := [],
          reason := "Empty content", cleaned_content := none } :=
  ⟨by decide, empty_content_early_return (realChecks modNone) "  " "general" (by decide)⟩

/-- C5 (counterexample): the spec's example "dating coach available" is
not a text flagged only as inappropriate: moderation flags it as spam
(the keyword "dating" among three words gives spam ratio 1/3 > 0.3), the
category list is exactly `["spam"]`, and `is_spammy` returns `true` on
it — contradicting the claim's `is_spammy = False` for that text. -/
theorem dating_coach_example_counterexample :
    (modNone.moderate_content "dating coach available" "general").categories = ["spam"] ∧
      is_spammy modNone "dating coach available" = true := by
  constructor
  · decide
  · decide

/-- C5 (amended): there exists a text flagged only as inappropriate —
"explicit art lessons" is one — for which moderation (with the rule-based
toxicity fallback) yields a flagged verdict whose only category is
`inappropriate`, while `is_spammy` on that same text returns `false`; the
spec's example "dating coach available" is not such a text, being flagged
as spam. -/
theorem inappropriate_only_text_not_spammy :
    (modNone.moderate_content "explicit art lessons" "general").is_flagged = true ∧
      (modNone.moderate_content "explicit art lessons" "general").categories =
        ["inappropriate"] ∧
      is_spammy modNone "explicit art lessons" = false := by
  refine ⟨?_, ?_, ?_⟩
  · decide
  · decide
  · decide

/-- A moderator whose Detoxify model loaded but whose prediction fails
(raises) on every input. -/
def modFail : ContentModerator := ⟨some (fun _ => none)⟩

/-- C7: for every non-empty content string, when the toxicity classifier
is unavailable (`detoxify_model = none`) or its prediction fails on the
(stripped) content, the toxicity check equals the rule-based fallback —
toxic exactly when at least one toxic-language regex matches or at least
two profanity-list words occur — and the whole moderation call returns
the same well-defined verdict as a moderator with no classifier at all
(in particular it returns a verdict rather than failing). -/
theorem toxicity_fallback_on_unavailable (m : ContentModerator)
    (content ct : String) (hne : pyStrip content ≠ "")
    (hun : m.detoxify_model = none ∨
      ∃ f, m.detoxify_model = some f ∧ f (pyStrip content) = none) :
    m._check_toxicity (pyStrip content) = _check_toxicity_rules (pyStrip content) ∧
      ((m._check_toxicity (pyStrip content)).is_toxic = true ↔
        0 < toxic_matches (pyLower (pyStrip content)).toList ∨
          2 ≤ profanity_count (pyLower (pyStrip content))) ∧
      m.moderate_content content ct = modNone.moderate_content content ct := by
  have htox : m._check_toxicity (pyStrip content) =
      _check_toxicity_rules (pyStrip content) := by
    unfold ContentModerator._check_toxicity
    rcases hun with h | ⟨f, hf, hfail⟩
    · rw [h]
    · rw [hf]
      dsimp only
      rw [hfail]
  have hmodnone : ∀ s, ContentModerator._check_toxicity modNone s =
      _check_toxicity_rules s := fun s => rfl
  refine ⟨htox, ?_, ?_⟩
  · rw [htox]
    unfold _check_toxicity_rules
    simp
  · unfold ContentModerator.moderate_content moderate_with
    simp only [realChecks]
    simp only [htox, hmodnone]

/-- Witness for C7: a moderator whose prediction fails on "hello" falls
back to the rule-based check and moderates exactly like a moderator with
no classifier. -/
theorem toxicity_fallback_on_unavailable_witness :
    pyStrip "hello" ≠ "" ∧
      modFail._check_toxicity (pyStrip "hello") = _check_toxicity_rules (pyStrip "hello") ∧
      modFail.moderate_content "hello" "general" =
        modNone.moderate_content "hello" "general" :=
  ⟨by decide,
   (toxicity_fallback_on_unavailable modFail "hello" "general" (by decide)
      (Or.inr ⟨_, rfl, rfl⟩)).1,
   (toxicity_fallback_on_unavailable modFail "hello" "general" (by decide)
      (Or.inr ⟨_, rfl, rfl⟩)).2.2⟩
